import Mathlib

/-!
Shallow embedding of the WebGPU render-target subsystem
(`src/rendering/renderers/gpu/renderTarget/GpuRenderTargetSystem.ts`).

The `GpuRenderTargetSystem` class is translated as a pure state-passing
system: the mutable fields of the class become a `SystemState` record, and
each method becomes a function from `SystemState` (plus its arguments) to an
`Option` of its result paired with the updated state.  `none` models an
uncaught JavaScript exception escaping the method (e.g. a `TypeError` from a
null dereference); exceptions that the source catches do not produce `none`.

Collaborator data (`RenderTarget`, `Texture`, `TextureSource`,
`GpuRenderTarget`) lives outside the translated file; their fields are
modelled as plain records holding exactly the data the system reads and
writes, with defaults taken from the specification where the source of the
class is not part of the reviewed material.
-/

namespace Pixi

/-- A native windowing canvas (`ICanvas` / `HTMLCanvasElement`).
`configureThrows` models whether the native `GPUCanvasContext.configure`
call raises for this canvas (e.g. an unsupported format). -/
structure CanvasData where
  uid : Nat
  configureThrows : Bool := false
deriving DecidableEq, Repr

/-- The `resource` field of a `TextureSource`: either a windowing canvas or
any other backing resource (image, buffer, nothing). -/
inductive TextureResource where
  | canvas (c : CanvasData)
  | other
deriving DecidableEq, Repr

/-- `GPUCanvasContext` obtained from `canvas.getContext('webgpu')`. -/
structure GPUCanvasContext where
  canvas : CanvasData
deriving DecidableEq, Repr

/-- `resource.getContext('webgpu')`: only a canvas has a `getContext`
method; on any other resource the call is a `TypeError` (modelled `none`). -/
def TextureResource.getContext : TextureResource → Option GPUCanvasContext
  | .canvas c => some ⟨c⟩
  | .other => none

/-- Whether a texture resource is a canvas
(`resource instanceof HTMLCanvasElement`). -/
def TextureResource.isCanvas : TextureResource → Bool
  | .canvas _ => true
  | .other => false

/-- Source of a depth/stencil texture; the system reads and writes its
`sampleCount` and builds a view from it.  Kept as a separate record from
`TextureSource` to avoid mutual recursion through `depthStencil`. -/
structure DepthSource where
  uid : Nat
  sampleCount : Nat := 1
deriving DecidableEq, Repr

/-- A bindable depth/stencil texture (`renderTarget.depthTexture`). -/
structure DepthTexture where
  source : DepthSource
deriving DecidableEq, Repr

/-- Modelled from the spec: `TextureSource` (class not part of the reviewed
material) — width, height, resolution, antialias flag, sample count,
native resource, and optional associated depth/stencil texture, with the
defaults the specification describes (no antialias, one sample). -/
structure TextureSource where
  width : Nat := 0
  height : Nat := 0
  resolution : ℚ := 1
  antialias : Bool := false
  sampleCount : Nat := 1
  resource : TextureResource := .other
  depthStencil : Option DepthTexture := none
deriving DecidableEq, Repr

/-- `TextureSource.resize(width, height, resolution)`. -/
def TextureSource.resize (s : TextureSource) (w h : Nat) (res : ℚ) : TextureSource :=
  { s with width := w, height := h, resolution := res }

/-- A bindable color texture (`Texture` / `BindableTexture`): identity plus
its source. -/
structure Texture where
  uid : Nat
  source : TextureSource
deriving DecidableEq, Repr

/-- Modelled from the spec: `RenderTarget` (class not part of the reviewed
material) — unique identifier, ordered color attachments, optional
depth/stencil attachment, dimensions, and the root flag. -/
structure RenderTarget where
  uid : Nat
  colorTextures : List Texture := []
  depthTexture : Option DepthTexture := none
  isRoot : Bool := false
  width : Nat := 0
  height : Nat := 0
deriving DecidableEq, Repr

/-- `renderTarget.colorTexture`: the first color attachment. -/
def RenderTarget.colorTexture (rt : RenderTarget) : Texture :=
  rt.colorTextures.headD { uid := 0, source := {} }

/-- `RenderSurface = ICanvas | BindableTexture | RenderTarget`. -/
inductive RenderSurface where
  | canvas (c : CanvasData)
  | texture (t : Texture)
  | target (rt : RenderTarget)
deriving DecidableEq, Repr

/-- An `RGBAArray` clear color `[r, g, b, a]`. -/
abbrev RGBAArray := ℚ × ℚ × ℚ × ℚ

/-- `DEFAULT_CLEAR_COLOR = [0, 0, 0, 0]`. -/
def DEFAULT_CLEAR_COLOR : RGBAArray := (0, 0, 0, 0)

/-- `GPULoadOp`. -/
inductive LoadOp where
  | load
  | clear
deriving DecidableEq, Repr

/-- `GPUStoreOp`. -/
inductive StoreOp where
  | store
deriving DecidableEq, Repr

/-- A `GPUTextureView`: a view of the current swap-chain texture of a
canvas context, of a color texture, or of a (multisample) texture source. -/
inductive GPUTextureView where
  | ofCanvas (ctx : GPUCanvasContext)
  | ofTexture (t : Texture)
  | ofSource (s : TextureSource)
deriving DecidableEq, Repr

/-- One `GPURenderPassColorAttachment` of a pass descriptor. -/
structure ColorAttachment where
  view : GPUTextureView
  resolveTarget : Option GPUTextureView
  clearValue : RGBAArray
  storeOp : StoreOp
  loadOp : LoadOp
deriving DecidableEq, Repr

/-- The depth/stencil attachment of a pass descriptor. -/
structure DepthStencilAttachment where
  view : DepthSource
  stencilStoreOp : StoreOp
  stencilLoadOp : LoadOp
deriving DecidableEq, Repr

/-- A `GPURenderPassDescriptor`. -/
structure GPURenderPassDescriptor where
  colorAttachments : List ColorAttachment
  depthStencilAttachment : Option DepthStencilAttachment
deriving DecidableEq, Repr

/-- Modelled from the spec: `GpuRenderTarget` (class not part of the
reviewed material) — per-attachment canvas contexts, per-attachment
multisample textures, msaa flag, sample count (4 when MSAA is enabled,
1 otherwise, so 1 is the pre-MSAA default), cached width/height used to
detect resize (`none` while still unset), and the most recently built
pass descriptor.  `contexts` and `msaaTextures` are sparse arrays indexed
like `colorTextures`, modelled as lists of options. -/
structure GpuRenderTarget where
  contexts : List (Option GPUCanvasContext) := []
  msaaTextures : List (Option TextureSource) := []
  msaa : Bool := false
  msaaSamples : Nat := 1
  width : Option Nat := none
  height : Option Nat := none
  descriptor : Option GPURenderPassDescriptor := none
deriving DecidableEq, Repr

/-- The mutable state of a `GpuRenderTargetSystem`:
`renderSurfaceToRenderTargetHash` (a `Map` keyed by surface identity,
modelled as an association list), `gpuRenderTargetHash` (keyed by
`renderTarget.uid`), the render-target stack, the root and current
targets, a counter supplying fresh `RenderTarget` uids, the number of
errors written to the console, and the descriptor of the most recently
begun render pass (the `encoder.beginRenderPass` collaborator call). -/
structure SystemState where
  renderSurfaceToRenderTargetHash : List (RenderSurface × RenderTarget) := []
  gpuRenderTargetHash : List (Nat × GpuRenderTarget) := []
  renderTargetStack : List RenderTarget := []
  rootRenderTarget : Option RenderTarget := none
  renderTarget : Option RenderTarget := none
  nextUid : Nat := 0
  errorsLogged : Nat := 0
  lastPass : Option GPURenderPassDescriptor := none
deriving DecidableEq, Repr

/-- Lookup in the surface-to-target `Map` (keyed by surface identity). -/
def findSurface (h : List (RenderSurface × RenderTarget)) (s : RenderSurface) :
    Option RenderTarget :=
  match h with
  | [] => none
  | (k, v) :: rest => if k = s then some v else findSurface rest s

/-- Lookup in `gpuRenderTargetHash` (keyed by `renderTarget.uid`). -/
def findGpu (h : List (Nat × GpuRenderTarget)) (uid : Nat) : Option GpuRenderTarget :=
  match h with
  | [] => none
  | (k, v) :: rest => if k = uid then some v else findGpu rest uid

/-- Replace the entry for `uid` in `gpuRenderTargetHash` (mutation of the
object held by the hash). -/
def updateGpu (h : List (Nat × GpuRenderTarget)) (uid : Nat) (g : GpuRenderTarget) :
    List (Nat × GpuRenderTarget) :=
  h.map (fun p => if p.1 = uid then (p.1, g) else p)

/-- `initRenderTarget(renderSurface)`: a `RenderTarget` surface is passed
through, a `Texture` surface is wrapped into a fresh single-attachment
`RenderTarget` carrying the texture's depth/stencil; any other surface
leaves the local `renderTarget` variable `null`, so the following
`renderTarget.isRoot = true` write is a `TypeError` (modelled `none`).
The result is marked root and cached under the surface. -/
def initRenderTarget (st : SystemState) (surf : RenderSurface) :
    Option (RenderTarget × SystemState) :=
  match surf with
  | .canvas _ => none
  | .target rt0 =>
    let rt : RenderTarget := { rt0 with isRoot := true }
    some (rt, { st with
      renderSurfaceToRenderTargetHash := (surf, rt) :: st.renderSurfaceToRenderTargetHash })
  | .texture t =>
    let rt : RenderTarget :=
      { uid := st.nextUid
        colorTextures := [t]
        depthTexture := t.source.depthStencil
        isRoot := true
        width := t.source.width
        height := t.source.height }
    some (rt, { st with
      renderSurfaceToRenderTargetHash := (surf, rt) :: st.renderSurfaceToRenderTargetHash
      nextUid := st.nextUid + 1 })

/-- `getRenderTarget(renderSurface)`: cached lookup, else construction. -/
def getRenderTarget (st : SystemState) (surf : RenderSurface) :
    Option (RenderTarget × SystemState) :=
  match findSurface st.renderSurfaceToRenderTargetHash surf with
  | some rt => some (rt, st)
  | none => initRenderTarget st surf

/-- `initGpuRenderTarget(renderTarget)`: marks the target root, then for
each color attachment — if the attachment's resource is a canvas it
acquires a context from `renderTarget.colorTexture` (the first
attachment) and tries to configure it, catching and logging any
configuration error, and records the context at the attachment's index;
sets the `msaa` flag from the attachment's antialias flag (so the last
attachment wins); and allocates a width-0, height-0, sample-count-4
multisample texture at the attachment's index when the attachment is
antialiased.  If `msaa` ends up set, the sample count becomes 4 and the
depth texture's sample count is synchronized to 4.  The result is cached
under the target's uid.  The loop writes `contexts[i]` and
`msaaTextures[i]` exactly at iteration `i`, so both sparse arrays are
translated as maps over the attachment list.  When some attachment is a
canvas but the first attachment is not, `getContext` is called on an
object without that method — an uncaught `TypeError` (modelled `none`). -/
def initGpuRenderTarget (st : SystemState) (rt0 : RenderTarget) :
    Option (GpuRenderTarget × RenderTarget × SystemState) :=
  let rt : RenderTarget := { rt0 with isRoot := true }
  let headRes : TextureResource := rt.colorTexture.source.resource
  if rt.colorTextures.any (fun t => t.source.resource.isCanvas && !headRes.isCanvas) then
    none
  else
    let contexts : List (Option GPUCanvasContext) :=
      rt.colorTextures.map (fun t =>
        if t.source.resource.isCanvas then headRes.getContext else none)
    let newErrors : Nat :=
      if (match headRes with | .canvas c => c.configureThrows | .other => false) then
        (rt.colorTextures.filter (fun t => t.source.resource.isCanvas)).length
      else 0
    let msaaTextures : List (Option TextureSource) :=
      rt.colorTextures.map (fun t =>
        if t.source.antialias then
          some { width := 0, height := 0, sampleCount := 4 }
        else none)
    let msaa : Bool := rt.colorTextures.foldl (fun _ t => t.source.antialias) false
    let msaaSamples : Nat := if msaa then 4 else 1
    let rt : RenderTarget :=
      if msaa then
        { rt with depthTexture :=
            rt.depthTexture.map (fun d => { d with source := { d.source with sampleCount := 4 } }) }
      else rt
    let g : GpuRenderTarget :=
      { contexts := contexts
        msaaTextures := msaaTextures
        msaa := msaa
        msaaSamples := msaaSamples }
    some (g, rt, { st with
      gpuRenderTargetHash := (rt0.uid, g) :: st.gpuRenderTargetHash
      errorsLogged := st.errorsLogged + newErrors })

/-- `getGpuRenderTarget(renderTarget)`: cached lookup by uid, else
first-time backend setup.  The returned `RenderTarget` is the (possibly
updated) target, since `initGpuRenderTarget` writes to it. -/
def getGpuRenderTarget (st : SystemState) (rt : RenderTarget) :
    Option (GpuRenderTarget × RenderTarget × SystemState) :=
  match findGpu st.gpuRenderTargetHash rt.uid with
  | some g => some (g, rt, st)
  | none => initGpuRenderTarget st rt

/-- The state update performed by `resizeGpuRenderTarget` on the fetched
backend target `g`: cached width and height become the target's, and —
when the backend target is multisampled — `msaaTextures[i]` (when
present) is resized to attachment `i`'s source width, height, and
resolution. -/
def resizedGpu (rt : RenderTarget) (g : GpuRenderTarget) : GpuRenderTarget :=
  let msaaTextures : List (Option TextureSource) :=
    if g.msaa then
      g.msaaTextures.enum.map (fun p =>
        match rt.colorTextures[p.1]? with
        | some ct => p.2.map (fun m =>
            m.resize ct.source.width ct.source.height ct.source.resolution)
        | none => p.2)
    else g.msaaTextures
  { g with width := some rt.width, height := some rt.height, msaaTextures := msaaTextures }

def resizeApply (st : SystemState) (rt : RenderTarget) (g : GpuRenderTarget) : SystemState :=
  { st with gpuRenderTargetHash := updateGpu st.gpuRenderTargetHash rt.uid (resizedGpu rt g) }

/-- `resizeGpuRenderTarget(renderTarget)`: refetches the backend target,
then applies the resize update. -/
def resizeGpuRenderTarget (st : SystemState) (rt : RenderTarget) : Option SystemState :=
  (getGpuRenderTarget st rt).bind fun q =>
    some (resizeApply q.2.2 rt q.1)

/-- One color attachment of the pass descriptor, for attachment index `i`:
the view is the canvas context's current swap-chain texture view when a
context is recorded at `i`, else the attachment's own texture view; when a
multisample texture is recorded at `i`, the view becomes the multisample
texture's view and the previously selected view becomes the resolve
target.  Store operation is always `store`; the clear value defaults to
`DEFAULT_CLEAR_COLOR` when no clear color was supplied. -/
def buildColorAttachment (g : GpuRenderTarget) (clear : Bool) (clearValue : Option RGBAArray)
    (i : Nat) (texture : Texture) : ColorAttachment :=
  let view0 : GPUTextureView :=
    match g.contexts.getD i none with
    | some ctx => .ofCanvas ctx
    | none => .ofTexture texture
  let viewPair : GPUTextureView × Option GPUTextureView :=
    match g.msaaTextures.getD i none with
    | some ms => (.ofSource ms, some view0)
    | none => (view0, none)
  { view := viewPair.1
    resolveTarget := viewPair.2
    clearValue := clearValue.getD DEFAULT_CLEAR_COLOR
    storeOp := .store
    loadOp := if clear then .clear else .load }

/-- `getDescriptor(renderTarget, clear, clearValue)`: fetches the backend
target (initializing it if needed), builds one color attachment per color
texture, and a depth/stencil attachment mirroring the color load
operation when a depth texture is present. -/
def getDescriptor (st : SystemState) (rt : RenderTarget) (clear : Bool)
    (clearValue : Option RGBAArray) : Option (GPURenderPassDescriptor × SystemState) :=
  (getGpuRenderTarget st rt).bind fun q =>
    let colorAttachments : List ColorAttachment :=
      rt.colorTextures.enum.map (fun p => buildColorAttachment q.1 clear clearValue p.1 p.2)
    let depthStencilAttachment : Option DepthStencilAttachment :=
      rt.depthTexture.map (fun d =>
        { view := d.source
          stencilStoreOp := .store
          stencilLoadOp := if clear then .clear else .load })
    some ({ colorAttachments := colorAttachments
            depthStencilAttachment := depthStencilAttachment }, q.2.2)

/-- `gpuRenderTarget.descriptor = descriptor`: the descriptor write lands
on the object held by `gpuRenderTargetHash`. -/
def setGpuDescriptor (st : SystemState) (uid : Nat) (d : GPURenderPassDescriptor) :
    SystemState :=
  let g : GpuRenderTarget :=
    match findGpu st.gpuRenderTargetHash uid with
    | some g => { g with descriptor := some d }
    | none => { descriptor := some d }
  { st with gpuRenderTargetHash := updateGpu st.gpuRenderTargetHash uid g }

/-- `bind(renderSurface, clear, clearColor)`: resolves the target, records
it as current, fetches the backend target, resizes when the target's
dimensions differ from the cached backend dimensions, builds a fresh pass
descriptor, stores it on the backend target, and begins a render pass with
it (recorded in `lastPass`). -/
def bind (st : SystemState) (surf : RenderSurface) (clear : Bool)
    (clearColor : Option RGBAArray) : Option (RenderTarget × SystemState) :=
  (getRenderTarget st surf).bind fun r =>
    (getGpuRenderTarget { r.2 with renderTarget := some r.1 } r.1).bind fun q =>
      (if q.1.width ≠ some r.1.width ∨ q.1.height ≠ some r.1.height then
          resizeGpuRenderTarget q.2.2 r.1
        else some q.2.2).bind fun st =>
        (getDescriptor st r.1 clear clearColor).bind fun dp =>
          some (r.1, { setGpuDescriptor dp.2 r.1.uid dp.1 with lastPass := some dp.1 })

/-- `push(renderSurface, clear, clearColor)`: binds, then appends the
bound target to the render-target stack. -/
def push (st : SystemState) (surf : RenderSurface) (clear : Bool)
    (clearColor : Option RGBAArray) : Option (RenderTarget × SystemState) :=
  (bind st surf clear clearColor).bind fun r =>
    some (r.1, { r.2 with renderTargetStack := r.2.renderTargetStack ++ [r.1] })

/-- `pop()`: removes the top of the stack, then binds the new top with
`clear = false`.  On a stack of fewer than two targets the new top is
`undefined` and the inner `getRenderTarget` dereferences null (`none`). -/
def pop (st : SystemState) : Option SystemState :=
  let stack := st.renderTargetStack.dropLast
  stack.getLast?.bind fun top =>
    (bind { st with renderTargetStack := stack } (.target top) false none).bind fun r =>
      some r.2

/-- `start(rootRenderSurface, clear, clearColor)`: resolves the root
target, resets the stack to empty, starts the encoder, and pushes the
root surface. -/
def start (st : SystemState) (surf : RenderSurface) (clear : Bool)
    (clearColor : Option RGBAArray) : Option SystemState :=
  (getRenderTarget st surf).bind fun r =>
    (push { r.2 with rootRenderTarget := some r.1, renderTargetStack := [] }
        surf clear clearColor).bind fun p =>
      some p.2

/-! ### Lookup and update laws for the two hashes -/

lemma findSurface_cons_self {h : List (RenderSurface × RenderTarget)} {s : RenderSurface}
    {rt : RenderTarget} : findSurface ((s, rt) :: h) s = some rt := by
  show (if s = s then some rt else findSurface h s) = some rt
  rw [if_pos rfl]

lemma findSurface_cons_ne {h : List (RenderSurface × RenderTarget)} {k s : RenderSurface}
    {v : RenderTarget} (hk : k ≠ s) : findSurface ((k, v) :: h) s = findSurface h s := by
  show (if k = s then some v else findSurface h s) = findSurface h s
  rw [if_neg hk]

lemma findSurface_mem {h : List (RenderSurface × RenderTarget)} {s : RenderSurface}
    {rt : RenderTarget} (hf : findSurface h s = some rt) : (s, rt) ∈ h := by
  induction h with
  | nil => simp [findSurface] at hf
  | cons p rest ih =>
    obtain ⟨k, v⟩ := p
    by_cases hk : k = s
    · subst hk
      rw [findSurface_cons_self] at hf
      injection hf with hv
      subst hv
      exact List.mem_cons_self _ _
    · rw [findSurface_cons_ne hk] at hf
      exact List.mem_cons_of_mem _ (ih hf)

lemma findGpu_cons_self {h : List (Nat × GpuRenderTarget)} {uid : Nat}
    {g : GpuRenderTarget} : findGpu ((uid, g) :: h) uid = some g := by
  show (if uid = uid then some g else findGpu h uid) = some g
  rw [if_pos rfl]

lemma findGpu_cons_ne {h : List (Nat × GpuRenderTarget)} {k uid : Nat}
    {v : GpuRenderTarget} (hk : k ≠ uid) : findGpu ((k, v) :: h) uid = findGpu h uid := by
  show (if k = uid then some v else findGpu h uid) = findGpu h uid
  rw [if_neg hk]

lemma findGpu_updateGpu_self {h : List (Nat × GpuRenderTarget)} {uid : Nat}
    {g0 g : GpuRenderTarget} (hf : findGpu h uid = some g0) :
    findGpu (updateGpu h uid g) uid = some g := by
  induction h with
  | nil => simp [findGpu] at hf
  | cons p rest ih =>
    obtain ⟨k, v⟩ := p
    by_cases hk : k = uid
    · subst hk
      have h1 : updateGpu ((k, v) :: rest) k g = (k, g) :: updateGpu rest k g := by
        show (if k = k then (k, g) else (k, v)) :: updateGpu rest k g = _
        rw [if_pos rfl]
      rw [h1]
      exact findGpu_cons_self
    · rw [findGpu_cons_ne hk] at hf
      have h1 : updateGpu ((k, v) :: rest) uid g = (k, v) :: updateGpu rest uid g := by
        show (if k = uid then (k, g) else (k, v)) :: updateGpu rest uid g = _
        rw [if_neg hk]
      rw [h1, findGpu_cons_ne hk]
      exact ih hf

/-! ### Result shapes of lookup-or-create operations -/

lemma getRenderTarget_cached {st : SystemState} {surf : RenderSurface} {rt : RenderTarget}
    (hf : findSurface st.renderSurfaceToRenderTargetHash surf = some rt) :
    getRenderTarget st surf = some (rt, st) := by
  unfold getRenderTarget
  rw [hf]

lemma getRenderTarget_find {st st' : SystemState} {surf : RenderSurface} {rt : RenderTarget}
    (h : getRenderTarget st surf = some (rt, st')) :
    findSurface st'.renderSurfaceToRenderTargetHash surf = some rt := by
  unfold getRenderTarget at h
  cases hf : findSurface st.renderSurfaceToRenderTargetHash surf with
  | some rt0 =>
    rw [hf] at h
    simp only [Option.some.injEq, Prod.mk.injEq] at h
    obtain ⟨h1, h2⟩ := h
    subst h1; subst h2
    exact hf
  | none =>
    rw [hf] at h
    unfold initRenderTarget at h
    cases surf with
    | canvas c => simp at h
    | target rt0 =>
      simp only [Option.some.injEq, Prod.mk.injEq] at h
      obtain ⟨h1, h2⟩ := h
      subst h1; subst h2
      exact findSurface_cons_self
    | texture t =>
      simp only [Option.some.injEq, Prod.mk.injEq] at h
      obtain ⟨h1, h2⟩ := h
      subst h1; subst h2
      exact findSurface_cons_self

/-- `getRenderTarget` only ever prepends to the surface hash; every other
state component is untouched. -/
lemma getRenderTarget_frame {st st' : SystemState} {surf : RenderSurface} {rt : RenderTarget}
    (h : getRenderTarget st surf = some (rt, st')) :
    st'.gpuRenderTargetHash = st.gpuRenderTargetHash ∧
    st'.renderTargetStack = st.renderTargetStack ∧
    st'.rootRenderTarget = st.rootRenderTarget ∧
    st'.renderTarget = st.renderTarget ∧
    st'.lastPass = st.lastPass ∧
    st'.errorsLogged = st.errorsLogged := by
  unfold getRenderTarget at h
  cases hf : findSurface st.renderSurfaceToRenderTargetHash surf with
  | some rt0 =>
    rw [hf] at h
    simp only [Option.some.injEq, Prod.mk.injEq] at h
    obtain ⟨h1, h2⟩ := h
    subst h2
    exact ⟨rfl, rfl, rfl, rfl, rfl, rfl⟩
  | none =>
    rw [hf] at h
    unfold initRenderTarget at h
    cases surf with
    | canvas c => simp at h
    | target rt0 =>
      simp only [Option.some.injEq, Prod.mk.injEq] at h
      obtain ⟨h1, h2⟩ := h
      subst h2
      exact ⟨rfl, rfl, rfl, rfl, rfl, rfl⟩
    | texture t =>
      simp only [Option.some.injEq, Prod.mk.injEq] at h
      obtain ⟨h1, h2⟩ := h
      subst h2
      exact ⟨rfl, rfl, rfl, rfl, rfl, rfl⟩

lemma initGpuRenderTarget_uid {st st' : SystemState} {rt : RenderTarget}
    {g : GpuRenderTarget} {rt' : RenderTarget}
    (h : initGpuRenderTarget st rt = some (g, rt', st')) : rt'.uid = rt.uid := by
  simp only [initGpuRenderTarget] at h
  split at h
  · simp at h
  · simp only [Option.some.injEq, Prod.mk.injEq] at h
    obtain ⟨h1, h2, h3⟩ := h
    subst h2
    split <;> rfl

lemma initGpuRenderTarget_isRoot {st st' : SystemState} {rt : RenderTarget}
    {g : GpuRenderTarget} {rt' : RenderTarget}
    (h : initGpuRenderTarget st rt = some (g, rt', st')) : rt'.isRoot = true := by
  simp only [initGpuRenderTarget] at h
  split at h
  · simp at h
  · simp only [Option.some.injEq, Prod.mk.injEq] at h
    obtain ⟨h1, h2, h3⟩ := h
    subst h2
    split <;> rfl

/-- `initGpuRenderTarget` prepends the created backend target under the
target's uid, leaving the rest of the gpu hash and the other state
components (other than the error log) untouched. -/
lemma initGpuRenderTarget_frame {st st' : SystemState} {rt : RenderTarget}
    {g : GpuRenderTarget} {rt' : RenderTarget}
    (h : initGpuRenderTarget st rt = some (g, rt', st')) :
    st'.gpuRenderTargetHash = (rt.uid, g) :: st.gpuRenderTargetHash ∧
    st'.renderSurfaceToRenderTargetHash = st.renderSurfaceToRenderTargetHash ∧
    st'.renderTargetStack = st.renderTargetStack ∧
    st'.rootRenderTarget = st.rootRenderTarget ∧
    st'.renderTarget = st.renderTarget ∧
    st'.lastPass = st.lastPass := by
  simp only [initGpuRenderTarget] at h
  split at h
  · simp at h
  · simp only [Option.some.injEq, Prod.mk.injEq] at h
    obtain ⟨h1, h2, h3⟩ := h
    subst h1
    subst h3
    exact ⟨rfl, rfl, rfl, rfl, rfl, rfl⟩

lemma getGpuRenderTarget_find {st st' : SystemState} {rt : RenderTarget}
    {g : GpuRenderTarget} {rt' : RenderTarget}
    (h : getGpuRenderTarget st rt = some (g, rt', st')) :
    findGpu st'.gpuRenderTargetHash rt.uid = some g ∧ rt'.uid = rt.uid := by
  unfold getGpuRenderTarget at h
  cases hf : findGpu st.gpuRenderTargetHash rt.uid with
  | some g0 =>
    rw [hf] at h
    simp only [Option.some.injEq, Prod.mk.injEq] at h
    obtain ⟨h1, h2, h3⟩ := h
    subst h1; subst h2; subst h3
    exact ⟨hf, rfl⟩
  | none =>
    rw [hf] at h
    have huid := initGpuRenderTarget_uid h
    have hframe := initGpuRenderTarget_frame h
    rw [hframe.1]
    exact ⟨findGpu_cons_self, huid⟩

lemma getGpuRenderTarget_cached {st : SystemState} {rt : RenderTarget} {g : GpuRenderTarget}
    (hf : findGpu st.gpuRenderTargetHash rt.uid = some g) :
    getGpuRenderTarget st rt = some (g, rt, st) := by
  unfold getGpuRenderTarget
  rw [hf]

lemma getGpuRenderTarget_frame {st st' : SystemState} {rt : RenderTarget}
    {g : GpuRenderTarget} {rt' : RenderTarget}
    (h : getGpuRenderTarget st rt = some (g, rt', st')) :
    st'.renderSurfaceToRenderTargetHash = st.renderSurfaceToRenderTargetHash ∧
    st'.renderTargetStack = st.renderTargetStack ∧
    st'.rootRenderTarget = st.rootRenderTarget ∧
    st'.renderTarget = st.renderTarget ∧
    st'.lastPass = st.lastPass := by
  unfold getGpuRenderTarget at h
  cases hf : findGpu st.gpuRenderTargetHash rt.uid with
  | some g0 =>
    rw [hf] at h
    simp only [Option.some.injEq, Prod.mk.injEq] at h
    obtain ⟨h1, h2, h3⟩ := h
    subst h3
    exact ⟨rfl, rfl, rfl, rfl, rfl⟩
  | none =>
    rw [hf] at h
    have hframe := initGpuRenderTarget_frame h
    exact ⟨hframe.2.1, hframe.2.2.1, hframe.2.2.2.1, hframe.2.2.2.2.1, hframe.2.2.2.2.2⟩

/-! ### Descriptor construction -/

lemma buildColorAttachment_loadOp {g : GpuRenderTarget} {clear : Bool}
    {cv : Option RGBAArray} {i : Nat} {t : Texture} :
    (buildColorAttachment g clear cv i t).loadOp = (if clear then .clear else .load) := rfl

lemma buildColorAttachment_storeOp {g : GpuRenderTarget} {clear : Bool}
    {cv : Option RGBAArray} {i : Nat} {t : Texture} :
    (buildColorAttachment g clear cv i t).storeOp = .store := rfl

lemma buildColorAttachment_clearValue {g : GpuRenderTarget} {clear : Bool}
    {cv : Option RGBAArray} {i : Nat} {t : Texture} :
    (buildColorAttachment g clear cv i t).clearValue = cv.getD DEFAULT_CLEAR_COLOR := rfl

lemma getElem?_enum_map {α β : Type _} (l : List α) (f : Nat × α → β) (i : Nat) :
    (l.enum.map f)[i]? = l[i]?.map (fun a => f (i, a)) := by
  rw [List.getElem?_map, List.getElem?_enum]
  cases l[i]? <;> rfl

/-- Every color attachment of a constructed descriptor carries the load
operation selected by `clear`, store operation `store`, and the supplied
clear color (or the default); the rest of the state is exactly the state
the backend-target fetch produced. -/
lemma getDescriptor_spec {st st' : SystemState} {rt : RenderTarget} {clear : Bool}
    {cv : Option RGBAArray} {d : GPURenderPassDescriptor}
    (h : getDescriptor st rt clear cv = some (d, st')) :
    (∀ a ∈ d.colorAttachments,
      a.loadOp = (if clear then LoadOp.clear else LoadOp.load) ∧
      a.storeOp = StoreOp.store ∧
      a.clearValue = cv.getD DEFAULT_CLEAR_COLOR) ∧
    st'.renderSurfaceToRenderTargetHash = st.renderSurfaceToRenderTargetHash ∧
    st'.renderTargetStack = st.renderTargetStack ∧
    st'.rootRenderTarget = st.rootRenderTarget ∧
    st'.renderTarget = st.renderTarget ∧
    st'.lastPass = st.lastPass := by
  unfold getDescriptor at h
  rw [Option.bind_eq_some'] at h
  obtain ⟨q, hq, h⟩ := h
  simp only [Option.some.injEq, Prod.mk.injEq] at h
  obtain ⟨h1, h2⟩ := h
  subst h2
  have hframe := getGpuRenderTarget_frame hq
  refine ⟨?_, hframe.1, hframe.2.1, hframe.2.2.1, hframe.2.2.2.1, hframe.2.2.2.2⟩
  intro a ha
  rw [← h1] at ha
  simp only [List.mem_map] at ha
  obtain ⟨p, hp, ha⟩ := ha
  subst ha
  exact ⟨buildColorAttachment_loadOp, buildColorAttachment_storeOp,
    buildColorAttachment_clearValue⟩

/-! ### Resize -/

lemma setGpuDescriptor_frame {st : SystemState} {uid : Nat} {d : GPURenderPassDescriptor} :
    (setGpuDescriptor st uid d).renderSurfaceToRenderTargetHash =
      st.renderSurfaceToRenderTargetHash ∧
    (setGpuDescriptor st uid d).renderTargetStack = st.renderTargetStack ∧
    (setGpuDescriptor st uid d).rootRenderTarget = st.rootRenderTarget ∧
    (setGpuDescriptor st uid d).renderTarget = st.renderTarget :=
  ⟨rfl, rfl, rfl, rfl⟩

lemma resizeGpuRenderTarget_frame {st st' : SystemState} {rt : RenderTarget}
    (h : resizeGpuRenderTarget st rt = some st') :
    st'.renderSurfaceToRenderTargetHash = st.renderSurfaceToRenderTargetHash ∧
    st'.renderTargetStack = st.renderTargetStack ∧
    st'.rootRenderTarget = st.rootRenderTarget ∧
    st'.renderTarget = st.renderTarget ∧
    st'.lastPass = st.lastPass := by
  unfold resizeGpuRenderTarget at h
  rw [Option.bind_eq_some'] at h
  obtain ⟨q, hq, h⟩ := h
  simp only [Option.some.injEq] at h
  subst h
  have hframe := getGpuRenderTarget_frame hq
  exact ⟨hframe.1, hframe.2.1, hframe.2.2.1, hframe.2.2.2.1, hframe.2.2.2.2⟩

lemma resizedGpu_msaaTextures {rt : RenderTarget} {g : GpuRenderTarget} :
    (resizedGpu rt g).msaaTextures =
      if g.msaa then
        g.msaaTextures.enum.map (fun p =>
          match rt.colorTextures[p.1]? with
          | some ct => p.2.map (fun m =>
              m.resize ct.source.width ct.source.height ct.source.resolution)
          | none => p.2)
      else g.msaaTextures := rfl

/-- When the backend target is cached, resizing updates the cached
dimensions to the target's and, when multisampled, resizes each present
multisample texture to its attachment's source dimensions and
resolution. -/
lemma resizeGpuRenderTarget_spec {st st' : SystemState} {rt : RenderTarget}
    {g : GpuRenderTarget}
    (hf : findGpu st.gpuRenderTargetHash rt.uid = some g)
    (h : resizeGpuRenderTarget st rt = some st') :
    ∃ g', findGpu st'.gpuRenderTargetHash rt.uid = some g' ∧
      g'.width = some rt.width ∧
      g'.height = some rt.height ∧
      g'.msaa = g.msaa ∧
      g'.msaaSamples = g.msaaSamples ∧
      g'.contexts = g.contexts ∧
      (g.msaa = true → ∀ (i : Nat) (m : TextureSource) (ct : Texture),
        g.msaaTextures[i]? = some (some m) →
        rt.colorTextures[i]? = some ct →
        g'.msaaTextures[i]? =
          some (some (m.resize ct.source.width ct.source.height ct.source.resolution))) ∧
      (g.msaa = false → g'.msaaTextures = g.msaaTextures) := by
  unfold resizeGpuRenderTarget at h
  rw [Option.bind_eq_some'] at h
  obtain ⟨q, hq, h⟩ := h
  rw [getGpuRenderTarget_cached hf] at hq
  simp only [Option.some.injEq] at hq
  subst hq
  simp only [Option.some.injEq] at h
  subst h
  refine ⟨resizedGpu rt g, ?_, rfl, rfl, rfl, rfl, rfl, ?_, ?_⟩
  · exact findGpu_updateGpu_self hf
  · intro hm i m ct hms hct
    rw [resizedGpu_msaaTextures, if_pos hm, getElem?_enum_map, hms]
    simp [hct]
  · intro hm
    rw [resizedGpu_msaaTextures, if_neg (by rw [hm]; exact Bool.false_ne_true)]

/-! ### Bind -/

/-- Decomposition of a successful `bind`: it returns the target that
`getRenderTarget` resolved, leaves the stack and the root target
untouched, and begins a pass whose descriptor gives every color
attachment the load operation selected by `clear`, store operation
`store`, and the supplied clear color (default when omitted). -/
lemma bind_spec {st st' : SystemState} {surf : RenderSurface} {clear : Bool}
    {cv : Option RGBAArray} {rt : RenderTarget}
    (h : bind st surf clear cv = some (rt, st')) :
    st'.renderTargetStack = st.renderTargetStack ∧
    st'.rootRenderTarget = st.rootRenderTarget ∧
    (∃ st1, getRenderTarget st surf = some (rt, st1)) ∧
    ∃ d, st'.lastPass = some d ∧
      ∀ a ∈ d.colorAttachments,
        a.loadOp = (if clear then LoadOp.clear else LoadOp.load) ∧
        a.storeOp = StoreOp.store ∧
        a.clearValue = cv.getD DEFAULT_CLEAR_COLOR := by
  unfold bind at h
  rw [Option.bind_eq_some'] at h
  obtain ⟨r, hr, h⟩ := h
  rw [Option.bind_eq_some'] at h
  obtain ⟨q, hq, h⟩ := h
  rw [Option.bind_eq_some'] at h
  obtain ⟨stR, hR, h⟩ := h
  rw [Option.bind_eq_some'] at h
  obtain ⟨dp, hD, h⟩ := h
  simp only [Option.some.injEq, Prod.mk.injEq] at h
  obtain ⟨h1, h2⟩ := h
  obtain ⟨rt0, st0⟩ := r
  simp only at h1 hq hR hD
  subst h1
  subst h2
  have hframe0 := getRenderTarget_frame hr
  have hframe1 := getGpuRenderTarget_frame hq
  have hstR : stR.renderTargetStack = st.renderTargetStack ∧
      stR.rootRenderTarget = st.rootRenderTarget := by
    rcases hR with hR
    split at hR
    · have hframe2 := resizeGpuRenderTarget_frame hR
      exact ⟨by rw [hframe2.2.1, hframe1.2.1, hframe0.2.1],
        by rw [hframe2.2.2.1, hframe1.2.2.1, hframe0.2.2.1]⟩
    · simp only [Option.some.injEq] at hR
      subst hR
      exact ⟨by rw [hframe1.2.1, hframe0.2.1],
        by rw [hframe1.2.2.1, hframe0.2.2.1]⟩
  have hspecD := getDescriptor_spec hD
  refine ⟨?_, ?_, ⟨st0, hr⟩, dp.1, rfl, hspecD.1⟩
  · show dp.2.renderTargetStack = st.renderTargetStack
    rw [hspecD.2.2.1, hstR.1]
  · show dp.2.rootRenderTarget = st.rootRenderTarget
    rw [hspecD.2.2.2.1, hstR.2]

/-- When the bound target's dimensions differ from the cached backend
dimensions, `bind` performs the resize before constructing the
descriptor: afterwards the cached entry carries the target's dimensions,
with each present multisample texture resized to its attachment's source
dimensions (when multisampled), and holds the descriptor of the pass that
was begun. -/
lemma bind_resize_spec {st st' : SystemState} {surf : RenderSurface} {clear : Bool}
    {cv : Option RGBAArray} {rt : RenderTarget} {g : GpuRenderTarget}
    (hf : findGpu st.gpuRenderTargetHash rt.uid = some g)
    (hdim : g.width ≠ some rt.width ∨ g.height ≠ some rt.height)
    (h : bind st surf clear cv = some (rt, st')) :
    ∃ g', findGpu st'.gpuRenderTargetHash rt.uid = some g' ∧
      g'.width = some rt.width ∧
      g'.height = some rt.height ∧
      g'.msaa = g.msaa ∧
      (g.msaa = true → ∀ (i : Nat) (m : TextureSource) (ct : Texture),
        g.msaaTextures[i]? = some (some m) →
        rt.colorTextures[i]? = some ct →
        g'.msaaTextures[i]? =
          some (some (m.resize ct.source.width ct.source.height ct.source.resolution))) ∧
      g'.descriptor = st'.lastPass := by
  unfold bind at h
  rw [Option.bind_eq_some'] at h
  obtain ⟨r, hget, h⟩ := h
  obtain ⟨rt0, st1⟩ := r
  simp only at h
  rw [Option.bind_eq_some'] at h
  obtain ⟨q, hq, h⟩ := h
  rw [Option.bind_eq_some'] at h
  obtain ⟨stR, hR, h⟩ := h
  rw [Option.bind_eq_some'] at h
  obtain ⟨dp, hD, h⟩ := h
  obtain ⟨d0, stD⟩ := dp
  simp only [Option.some.injEq, Prod.mk.injEq] at h
  obtain ⟨h1, h2⟩ := h
  subst h1
  subst h2
  have hgf := getRenderTarget_frame hget
  have hf2 : findGpu ({ st1 with renderTarget := some rt0 } : SystemState).gpuRenderTargetHash
      rt0.uid = some g := by
    show findGpu st1.gpuRenderTargetHash rt0.uid = some g
    rw [hgf.1]
    exact hf
  rw [getGpuRenderTarget_cached hf2] at hq
  simp only [Option.some.injEq] at hq
  subst hq
  simp only at hR hD
  rw [if_pos hdim] at hR
  have hresize := resizeGpuRenderTarget_spec hf2 hR
  obtain ⟨g', hfind', hw, hh, hmsaa, _hsamples, _hctx, hrsz, _hrszn⟩ := hresize
  -- the descriptor fetch hits the cache and leaves the state unchanged
  unfold getDescriptor at hD
  rw [getGpuRenderTarget_cached hfind', Option.some_bind'] at hD
  simp only [Option.some.injEq, Prod.mk.injEq] at hD
  obtain ⟨hD1, hD2⟩ := hD
  subst hD2
  refine ⟨{ g' with descriptor := some d0 }, ?_, hw, hh, hmsaa, ?_, rfl⟩
  · show findGpu (setGpuDescriptor stR rt0.uid d0).gpuRenderTargetHash rt0.uid =
      some { g' with descriptor := some d0 }
    unfold setGpuDescriptor
    show findGpu (updateGpu stR.gpuRenderTargetHash rt0.uid _) rt0.uid = _
    rw [hfind']
    exact findGpu_updateGpu_self hfind'
  · intro hm i m ct hms hct
    show ({ g' with descriptor := some d0 } : GpuRenderTarget).msaaTextures[i]? = _
    exact hrsz hm i m ct hms hct

/-! ### Backend initialization analysis -/

/-- The last-write-wins `msaa` flag: folding the per-attachment antialias
assignment over a nonempty list of attachments that all agree on the flag
yields that flag, whatever the initial value. -/
lemma foldl_antialias_of_all {l : List Texture} {b : Bool}
    (hne : l ≠ []) (hall : ∀ t ∈ l, t.source.antialias = b) (a : Bool) :
    l.foldl (fun _ t => t.source.antialias) a = b := by
  induction l generalizing a with
  | nil => exact absurd rfl hne
  | cons x xs ih =>
    rw [List.foldl_cons]
    cases hxs : xs with
    | nil =>
      rw [List.foldl_nil]
      exact hall x (List.mem_cons_self _ _)
    | cons y ys =>
      rw [← hxs]
      refine ih (by rw [hxs]; exact List.cons_ne_nil _ _) ?_ _
      intro t ht
      exact hall t (List.mem_cons_of_mem _ ht)

lemma any_false {α : Type _} (l : List α) : (l.any fun _ => false) = false := by
  simp

/-- The invariant claim C10 is about: every target cached in the
surface-to-target hash is marked root. -/
def RootInvariant (st : SystemState) : Prop :=
  ∀ p ∈ st.renderSurfaceToRenderTargetHash, p.2.isRoot = true

/-! ### Concrete data used by counterexamples and witnesses -/

def st0 : SystemState := {}

def canvasW : CanvasData := { uid := 100 }

def texPlain : Texture := { uid := 1, source := { width := 10, height := 20 } }

/-! ### Claims -/

/-- Claim C1: the spec claims that `start(S, true, [1,0,0,1])` on a native
canvas surface (neither a `RenderTarget` nor a `Texture`) resolves a root
`RenderTarget` via backend-defined construction rather than failing.  The
code has no construction branch for such a surface: `initRenderTarget`
leaves its local `renderTarget` variable null and then dereferences it,
so `getRenderTarget` — and with it `start` — throws instead of returning
a target.  This theorem evaluates the code at the failing input. -/
theorem start_canvas_surface_null_deref :
    start st0 (RenderSurface.canvas canvasW) true (some (1, 0, 0, 1)) = none ∧
    getRenderTarget st0 (RenderSurface.canvas canvasW) = none :=
  ⟨rfl, rfl⟩

/-- Claim C2: on a stack of at least two targets, `pop` removes the top
element and rebinds the new top with `clear = false`, so every color
attachment of the resulting pass descriptor has load operation `load`,
preserving the parent target's contents. -/
theorem pop_rebinds_previous_with_load
    (st st' : SystemState)
    (_hlen : 2 ≤ st.renderTargetStack.length)
    (h : pop st = some st') :
    st'.renderTargetStack = st.renderTargetStack.dropLast ∧
    ∃ d, st'.lastPass = some d ∧
      ∀ a ∈ d.colorAttachments, a.loadOp = LoadOp.load := by
  unfold pop at h
  rw [Option.bind_eq_some'] at h
  obtain ⟨top, htop, h⟩ := h
  rw [Option.bind_eq_some'] at h
  obtain ⟨r, hb, h⟩ := h
  simp only [Option.some.injEq] at h
  subst h
  obtain ⟨rt2, stB⟩ := r
  have hspec := bind_spec hb
  refine ⟨hspec.1, ?_⟩
  obtain ⟨d, hd, hfields⟩ := hspec.2.2.2
  refine ⟨d, hd, fun a ha => ?_⟩
  have hload := (hfields a ha).1
  simpa using hload

/-- Claim C4: `getRenderTarget` is reference-stable: once a call has
resolved a surface to a target, calling again with the same surface
returns the same target and leaves the state unchanged — construction
runs at most once per surface. -/
theorem getRenderTarget_reference_stable
    (st : SystemState) (surf : RenderSurface) (rt : RenderTarget) (st' : SystemState)
    (h : getRenderTarget st surf = some (rt, st')) :
    getRenderTarget st' surf = some (rt, st') :=
  getRenderTarget_cached (getRenderTarget_find h)

/-- Claim C5: every successful `bind` begins a pass whose descriptor
gives each color attachment load operation `clear` when `clear = true`
and `load` otherwise, store operation `store`, and clear value equal to
the supplied clear color, defaulting to `[0, 0, 0, 0]` when omitted. -/
theorem bind_descriptor_clear_semantics
    (st st' : SystemState) (surf : RenderSurface) (clear : Bool)
    (cv : Option RGBAArray) (rt : RenderTarget)
    (h : bind st surf clear cv = some (rt, st')) :
    ∃ d, st'.lastPass = some d ∧
      ∀ a ∈ d.colorAttachments,
        a.loadOp = (if clear then LoadOp.clear else LoadOp.load) ∧
        a.storeOp = StoreOp.store ∧
        a.clearValue = cv.getD DEFAULT_CLEAR_COLOR :=
  (bind_spec h).2.2.2

/-- Claim C8: the backend lookup keyed by the target's uid is idempotent:
after a call has produced a backend target, calling again returns the
same backend target and leaves the state unchanged — first-time backend
setup runs exactly once per target. -/
theorem getGpuRenderTarget_idempotent
    (st : SystemState) (rt : RenderTarget) (g : GpuRenderTarget)
    (rt' : RenderTarget) (st' : SystemState)
    (h : getGpuRenderTarget st rt = some (g, rt', st')) :
    getGpuRenderTarget st' rt' = some (g, rt', st') := by
  obtain ⟨hfind, huid⟩ := getGpuRenderTarget_find h
  refine getGpuRenderTarget_cached ?_
  rw [huid]
  exact hfind

/-- Claim C10: every target that passes through the system is marked
root: `getRenderTarget` returns root-marked targets and preserves the
invariant that all cached targets are root-marked, and first-time backend
setup marks its target root again. -/
theorem render_targets_marked_root :
    (∀ (st : SystemState) (surf : RenderSurface) (rt : RenderTarget) (st' : SystemState),
      RootInvariant st → getRenderTarget st surf = some (rt, st') →
      rt.isRoot = true ∧ RootInvariant st') ∧
    (∀ (st : SystemState) (rt : RenderTarget) (g : GpuRenderTarget)
      (rt' : RenderTarget) (st' : SystemState),
      initGpuRenderTarget st rt = some (g, rt', st') → rt'.isRoot = true) := by
  constructor
  · intro st surf rt st' hinv h
    unfold getRenderTarget at h
    cases hf : findSurface st.renderSurfaceToRenderTargetHash surf with
    | some rt0 =>
      rw [hf] at h
      simp only [Option.some.injEq, Prod.mk.injEq] at h
      obtain ⟨h1, h2⟩ := h
      subst h1
      subst h2
      exact ⟨hinv _ (findSurface_mem hf), hinv⟩
    | none =>
      rw [hf] at h
      unfold initRenderTarget at h
      cases surf with
      | canvas c => simp at h
      | target rt0 =>
        simp only [Option.some.injEq, Prod.mk.injEq] at h
        obtain ⟨h1, h2⟩ := h
        subst h1
        subst h2
        refine ⟨rfl, ?_⟩
        intro p hp
        rcases List.mem_cons.mp hp with hp | hp
        · subst hp; rfl
        · exact hinv p hp
      | texture t =>
        simp only [Option.some.injEq, Prod.mk.injEq] at h
        obtain ⟨h1, h2⟩ := h
        subst h1
        subst h2
        refine ⟨rfl, ?_⟩
        intro p hp
        rcases List.mem_cons.mp hp with hp | hp
        · subst hp; rfl
        · exact hinv p hp
  · intro st rt g rt' st' h
    exact initGpuRenderTarget_isRoot h

def texAA : Texture := { uid := 2, source := { width := 10, height := 20, antialias := true } }

def texNA : Texture := { uid := 3, source := { width := 10, height := 20, antialias := false } }

def rtMix : RenderTarget :=
  { uid := 7, colorTextures := [texAA, texNA], width := 10, height := 20 }

def gpuOf (r : Option (GpuRenderTarget × RenderTarget × SystemState)) : GpuRenderTarget :=
  match r with
  | some p => p.1
  | none => {}

/-- The multisample texture allocated at backend setup:
width 0, height 0, sample count 4. -/
def msaaInit : TextureSource := { width := 0, height := 0, sampleCount := 4 }

/-- Claim C3 counterexample: a target whose two color sources mix
antialias flags (first antialiased, second not).  Backend setup gives it
sample count 1 — the `msaa` flag follows the last attachment — yet
allocates a multisample texture (of sample count 4) for the first
attachment, so a sample-count-1 target owns a multisample texture,
contradicting the claimed if-and-only-if invariant under either reading
of "its color sources requested antialiasing". -/
theorem initGpuRenderTarget_mixed_antialias_counterexample :
    (gpuOf (initGpuRenderTarget st0 rtMix)).msaaSamples = 1 ∧
    (gpuOf (initGpuRenderTarget st0 rtMix)).msaaTextures = [some msaaInit, none] :=
  ⟨rfl, rfl⟩

/-- Claim C3 (amended): for a target with at least one color attachment
whose color sources all agree on the antialias flag, backend setup yields
sample count 4 with one sample-count-4 multisample texture per attachment
when the flag is set (synchronizing the depth texture, when present, to
sample count 4), and sample count 1 with no multisample textures when it
is not. -/
theorem initGpuRenderTarget_uniform_antialias_msaa
    (st : SystemState) (rt : RenderTarget) (g : GpuRenderTarget)
    (rt' : RenderTarget) (st' : SystemState) (b : Bool)
    (hne : rt.colorTextures ≠ [])
    (hall : ∀ t ∈ rt.colorTextures, t.source.antialias = b)
    (h : initGpuRenderTarget st rt = some (g, rt', st')) :
    g.msaa = b ∧
    g.msaaSamples = (if b then 4 else 1) ∧
    g.msaaTextures.length = rt.colorTextures.length ∧
    (∀ ms ∈ g.msaaTextures,
      if b then ∃ m, ms = some m ∧ m.sampleCount = 4 else ms = none) ∧
    (b = true → ∀ dt, rt.depthTexture = some dt →
      ∃ dt', rt'.depthTexture = some dt' ∧ dt'.source.sampleCount = 4) := by
  have hfold : rt.colorTextures.foldl (fun _ t => t.source.antialias) false = b :=
    foldl_antialias_of_all hne hall false
  simp only [initGpuRenderTarget] at h
  split at h
  · simp at h
  · simp only [Option.some.injEq, Prod.mk.injEq] at h
    obtain ⟨h1, h2, h3⟩ := h
    subst h1
    refine ⟨hfold, ?_, ?_, ?_, ?_⟩
    · show (if rt.colorTextures.foldl (fun _ t => t.source.antialias) false = true
        then 4 else 1) = if b then 4 else 1
      rw [hfold]
    · exact List.length_map _ _
    · intro ms hms
      simp only [List.mem_map] at hms
      obtain ⟨t, ht, hmt⟩ := hms
      subst hmt
      rw [hall t ht]
      cases b with
      | true => exact ⟨msaaInit, rfl, rfl⟩
      | false => rfl
    · intro hb dt hdt
      subst hb
      subst h2
      rw [hfold]
      simp only [if_true]
      rw [hdt]
      exact ⟨_, rfl, rfl⟩

/-- Claim C6: whatever the prior state, a successful `start` leaves the
render-target stack holding exactly the resolved root target: the stack
is reset before the single initial push, and nothing from a previous
frame survives. -/
theorem start_resets_stack_to_root
    (st : SystemState) (surf : RenderSurface) (clear : Bool) (cv : Option RGBAArray)
    (root : RenderTarget) (st1 st' : SystemState)
    (hres : getRenderTarget st surf = some (root, st1))
    (h : start st surf clear cv = some st') :
    st'.renderTargetStack = [root] ∧ st'.rootRenderTarget = some root := by
  unfold start at h
  rw [hres, Option.some_bind'] at h
  simp only at h
  rw [Option.bind_eq_some'] at h
  obtain ⟨p, hp, h⟩ := h
  simp only [Option.some.injEq] at h
  subst h
  unfold push at hp
  rw [Option.bind_eq_some'] at hp
  obtain ⟨r, hb, hp⟩ := hp
  obtain ⟨rt2, stB⟩ := r
  simp only at hp
  simp only [Option.some.injEq] at hp
  subst hp
  have hfind : findSurface st1.renderSurfaceToRenderTargetHash surf = some root :=
    getRenderTarget_find hres
  have hcached : getRenderTarget
      ({ st1 with rootRenderTarget := some root, renderTargetStack := [] } : SystemState)
      surf =
      some (root,
        { st1 with rootRenderTarget := some root, renderTargetStack := [] }) :=
    getRenderTarget_cached hfind
  have hspec := bind_spec hb
  obtain ⟨stX, hX⟩ := hspec.2.2.1
  rw [hcached] at hX
  simp only [Option.some.injEq, Prod.mk.injEq] at hX
  obtain ⟨hrt, _hst⟩ := hX
  subst hrt
  have h1 : stB.renderTargetStack = ([] : List RenderTarget) := hspec.1
  have h2 : stB.rootRenderTarget = some root := hspec.2.1
  constructor
  · show stB.renderTargetStack ++ [root] = [root]
    rw [h1]
    rfl
  · show stB.rootRenderTarget = some root
    exact h2

/-- Claim C7: when the bound target's dimensions differ from the cached
backend dimensions, a successful `bind` resizes first: afterwards, the
backend entry carries the target's dimensions, each present multisample
texture is resized to its attachment's source width, height and
resolution (when multisampled), and the entry holds exactly the
descriptor of the pass that was begun — so the descriptor was built
against the resized entry. -/
theorem bind_resizes_before_descriptor
    (st st' : SystemState) (surf : RenderSurface) (clear : Bool)
    (cv : Option RGBAArray) (rt : RenderTarget) (g : GpuRenderTarget)
    (hf : findGpu st.gpuRenderTargetHash rt.uid = some g)
    (hdim : g.width ≠ some rt.width ∨ g.height ≠ some rt.height)
    (h : bind st surf clear cv = some (rt, st')) :
    ∃ g', findGpu st'.gpuRenderTargetHash rt.uid = some g' ∧
      g'.width = some rt.width ∧
      g'.height = some rt.height ∧
      g'.msaa = g.msaa ∧
      (g.msaa = true → ∀ (i : Nat) (m : TextureSource) (ct : Texture),
        g.msaaTextures[i]? = some (some m) →
        rt.colorTextures[i]? = some ct →
        g'.msaaTextures[i]? =
          some (some (m.resize ct.source.width ct.source.height ct.source.resolution))) ∧
      g'.descriptor = st'.lastPass :=
  bind_resize_spec hf hdim h

/-- Claim C9: when the first color attachment is canvas-backed and its
native context configuration throws, first-time backend setup still
completes: the error is logged (not propagated), the context is recorded
at the attachment's index, and the backend target is cached — the caller
receives no error signal. -/
theorem initGpuRenderTarget_configure_error_swallowed
    (st : SystemState) (rt : RenderTarget) (t0 : Texture) (rest : List Texture)
    (c : CanvasData)
    (hl : rt.colorTextures = t0 :: rest)
    (hc : t0.source.resource = TextureResource.canvas c)
    (ht : c.configureThrows = true) :
    ∃ g rt' st', initGpuRenderTarget st rt = some (g, rt', st') ∧
      g.contexts.head? = some (some { canvas := c }) ∧
      st.errorsLogged < st'.errorsLogged ∧
      findGpu st'.gpuRenderTargetHash rt.uid = some g := by
  simp only [initGpuRenderTarget, RenderTarget.colorTexture, hl, List.headD_cons, hc,
    TextureResource.isCanvas, Bool.not_true, Bool.and_false, any_false,
    Bool.false_eq_true, if_false, TextureResource.getContext, ht, if_true]
  refine ⟨_, _, _, rfl, ?_, ?_, ?_⟩
  · simp [hc, TextureResource.isCanvas]
  · show st.errorsLogged < st.errorsLogged +
      ((t0 :: rest).filter (fun t => t.source.resource.isCanvas)).length
    have hmem : t0 ∈ (t0 :: rest).filter (fun t => t.source.resource.isCanvas) := by
      rw [List.mem_filter]
      exact ⟨List.mem_cons_self _ _, by rw [hc]; rfl⟩
    have hpos : 0 < ((t0 :: rest).filter (fun t => t.source.resource.isCanvas)).length :=
      List.length_pos.mpr (List.ne_nil_of_mem hmem)
    exact Nat.lt_add_of_pos_right hpos
  · exact findGpu_cons_self

/-! ### Witnesses: each hypothesis-bearing claim theorem applied at a
concrete input -/

def surfT : RenderSurface := .texture texPlain

def rtT : RenderTarget :=
  { uid := 0, colorTextures := [texPlain], depthTexture := none, isRoot := true,
    width := 10, height := 20 }

def stT1 : SystemState :=
  { renderSurfaceToRenderTargetHash := [(surfT, rtT)], nextUid := 1 }

def dT : GPURenderPassDescriptor :=
  { colorAttachments :=
      [{ view := .ofTexture texPlain, resolveTarget := none,
         clearValue := (1, 0, 0, 1), storeOp := .store, loadOp := .clear }],
    depthStencilAttachment := none }

def gT : GpuRenderTarget :=
  { contexts := [none], msaaTextures := [none], msaa := false, msaaSamples := 1,
    width := some 10, height := some 20, descriptor := some dT }

def stBind5 : SystemState :=
  { renderSurfaceToRenderTargetHash := [(surfT, rtT)]
    gpuRenderTargetHash := [(0, gT)]
    renderTarget := some rtT
    nextUid := 1
    lastPass := some dT }

def stStart6 : SystemState :=
  { renderSurfaceToRenderTargetHash := [(surfT, rtT)]
    gpuRenderTargetHash := [(0, gT)]
    renderTargetStack := [rtT]
    rootRenderTarget := some rtT
    renderTarget := some rtT
    nextUid := 1
    lastPass := some dT }

theorem getRenderTarget_reference_stable_witness :
    getRenderTarget stT1 surfT = some (rtT, stT1) :=
  getRenderTarget_reference_stable st0 surfT rtT stT1 (by rfl)

theorem bind_descriptor_clear_semantics_witness :
    ∃ d, stBind5.lastPass = some d ∧
      ∀ a ∈ d.colorAttachments,
        a.loadOp = (if true then LoadOp.clear else LoadOp.load) ∧
        a.storeOp = StoreOp.store ∧
        a.clearValue =
          (some ((1 : ℚ), (0 : ℚ), (0 : ℚ), (1 : ℚ)) : Option RGBAArray).getD
            DEFAULT_CLEAR_COLOR :=
  bind_descriptor_clear_semantics st0 stBind5 surfT true (some (1, 0, 0, 1)) rtT (by rfl)

theorem start_resets_stack_to_root_witness :
    stStart6.renderTargetStack = [rtT] ∧ stStart6.rootRenderTarget = some rtT :=
  start_resets_stack_to_root st0 surfT true (some (1, 0, 0, 1)) rtT stT1 stStart6
    (by rfl) (by rfl)

def rtP : RenderTarget := { uid := 5, isRoot := true, width := 4, height := 4 }

def rtQ : RenderTarget := { uid := 6, isRoot := true, width := 4, height := 4 }

def stW2 : SystemState := { renderTargetStack := [rtP, rtQ] }

def dEmpty : GPURenderPassDescriptor :=
  { colorAttachments := [], depthStencilAttachment := none }

def gP2 : GpuRenderTarget :=
  { width := some 4, height := some 4, descriptor := some dEmpty }

def stPop2 : SystemState :=
  { renderSurfaceToRenderTargetHash := [(.target rtP, rtP)]
    gpuRenderTargetHash := [(5, gP2)]
    renderTargetStack := [rtP]
    renderTarget := some rtP
    lastPass := some dEmpty }

theorem pop_rebinds_previous_with_load_witness :
    stPop2.renderTargetStack = stW2.renderTargetStack.dropLast ∧
    ∃ d, stPop2.lastPass = some d ∧
      ∀ a ∈ d.colorAttachments, a.loadOp = LoadOp.load :=
  pop_rebinds_previous_with_load stW2 stPop2 (by decide) (by rfl)

def stGP : SystemState := { gpuRenderTargetHash := [(5, {})] }

theorem getGpuRenderTarget_idempotent_witness :
    getGpuRenderTarget stGP rtP = some ({}, rtP, stGP) :=
  getGpuRenderTarget_idempotent st0 rtP {} rtP stGP (by rfl)

theorem render_targets_marked_root_witness :
    (rtT.isRoot = true ∧ RootInvariant stT1) ∧ rtP.isRoot = true :=
  ⟨render_targets_marked_root.1 st0 surfT rtT stT1
      (by intro p hp; exact absurd hp (List.not_mem_nil p)) (by rfl),
    render_targets_marked_root.2 st0 rtP {} rtP stGP (by rfl)⟩

def texAA2 : Texture := { uid := 11, source := { width := 12, height := 12, antialias := true } }

def rtAA : RenderTarget :=
  { uid := 12, colorTextures := [texAA, texAA2],
    depthTexture := some { source := { uid := 90 } }, width := 10, height := 20 }

def gAA : GpuRenderTarget :=
  { contexts := [none, none], msaaTextures := [some msaaInit, some msaaInit],
    msaa := true, msaaSamples := 4 }

def rtAAroot : RenderTarget :=
  { uid := 12, colorTextures := [texAA, texAA2],
    depthTexture := some { source := { uid := 90, sampleCount := 4 } },
    isRoot := true, width := 10, height := 20 }

def stAA : SystemState := { gpuRenderTargetHash := [(12, gAA)] }

theorem initGpuRenderTarget_uniform_antialias_msaa_witness :
    gAA.msaa = true ∧
    gAA.msaaSamples = (if true then 4 else 1) ∧
    gAA.msaaTextures.length = rtAA.colorTextures.length ∧
    (∀ ms ∈ gAA.msaaTextures,
      if true then ∃ m, ms = some m ∧ m.sampleCount = 4 else ms = none) ∧
    (true = true → ∀ dt, rtAA.depthTexture = some dt →
      ∃ dt', rtAAroot.depthTexture = some dt' ∧ dt'.source.sampleCount = 4) :=
  initGpuRenderTarget_uniform_antialias_msaa st0 rtAA gAA rtAAroot stAA true
    (by decide) (by decide) (by rfl)

def texR : Texture :=
  { uid := 8, source := { width := 30, height := 40, resolution := 2, antialias := true } }

def rtR : RenderTarget :=
  { uid := 9, colorTextures := [texR], isRoot := true, width := 30, height := 40 }

def gR : GpuRenderTarget :=
  { contexts := [none], msaaTextures := [some msaaInit], msaa := true, msaaSamples := 4,
    width := some 5, height := some 5 }

def surfR : RenderSurface := .target rtR

def stR7 : SystemState :=
  { renderSurfaceToRenderTargetHash := [(surfR, rtR)], gpuRenderTargetHash := [(9, gR)] }

def msaaRes : TextureSource :=
  { width := 30, height := 40, resolution := 2, sampleCount := 4 }

def dR : GPURenderPassDescriptor :=
  { colorAttachments :=
      [{ view := .ofSource msaaRes,
         resolveTarget := some (.ofTexture texR), clearValue := (0, 0, 0, 0),
         storeOp := .store, loadOp := .load }],
    depthStencilAttachment := none }

def gR3 : GpuRenderTarget :=
  { contexts := [none], msaaTextures := [some msaaRes], msaa := true, msaaSamples := 4,
    width := some 30, height := some 40, descriptor := some dR }

def stBind7 : SystemState :=
  { renderSurfaceToRenderTargetHash := [(surfR, rtR)]
    gpuRenderTargetHash := [(9, gR3)]
    renderTarget := some rtR
    lastPass := some dR }

theorem bind_resizes_before_descriptor_witness :
    ∃ g', findGpu stBind7.gpuRenderTargetHash rtR.uid = some g' ∧
      g'.width = some rtR.width ∧
      g'.height = some rtR.height ∧
      g'.msaa = gR.msaa ∧
      (gR.msaa = true → ∀ (i : Nat) (m : TextureSource) (ct : Texture),
        gR.msaaTextures[i]? = some (some m) →
        rtR.colorTextures[i]? = some ct →
        g'.msaaTextures[i]? =
          some (some (m.resize ct.source.width ct.source.height ct.source.resolution))) ∧
      g'.descriptor = stBind7.lastPass :=
  bind_resizes_before_descriptor stR7 stBind7 surfR false none rtR gR
    (by rfl) (by decide) (by decide)

def canvasBad : CanvasData := { uid := 50, configureThrows := true }

def texCv : Texture :=
  { uid := 60, source := { width := 8, height := 8, resource := .canvas canvasBad } }

def rtCv : RenderTarget := { uid := 70, colorTextures := [texCv], width := 8, height := 8 }

theorem initGpuRenderTarget_configure_error_swallowed_witness :
    ∃ g rt' st', initGpuRenderTarget st0 rtCv = some (g, rt', st') ∧
      g.contexts.head? = some (some { canvas := canvasBad }) ∧
      st0.errorsLogged < st'.errorsLogged ∧
      findGpu st'.gpuRenderTargetHash rtCv.uid = some g :=
  initGpuRenderTarget_configure_error_swallowed st0 rtCv texCv [] canvasBad rfl rfl rfl

end Pixi
